import Mathlib

/-!
Verification of the PChat system-tray integration layer.

The definitions below are a shallow embedding of the three platform
backends (`tray-linux` in `src/unnamed/part_000`, `tray-windows.c`,
`tray-macos.m`) and the compile-time dispatcher (`src/unnamed/part_003`).
Native side effects (shell requests, callback invocations, file
unlinks) are made explicit as effect traces; native failure points
(file save, bitmap construction, window registration) are explicit
boolean parameters.
-/

namespace PChat

/-- A GdkPixbuf: width, height, row stride, channel count (3 or 4) and
the raw byte buffer, read as `pixels[y*rowstride + x*nChannels + c]`. -/
structure Pixbuf where
  width : Nat
  height : Nat
  rowstride : Nat
  nChannels : Nat
  pixels : Nat → Nat

/-- Source byte of channel `c` of pixel `(x, y)`. -/
def srcByte (pb : Pixbuf) (x y c : Nat) : Nat :=
  pb.pixels (y * pb.rowstride + x * pb.nChannels + c)

/-- The alpha read by the converters: `src[3]` for a 4-channel image,
`0xFF` otherwise (`a = (channels == 4) ? src[3] : 0xFF`). -/
def srcAlpha (pb : Pixbuf) (x y : Nat) : Nat :=
  if pb.nChannels = 4 then srcByte pb x y 3 else 255

/-- The premultiplication done by `pixbuf_to_hicon`:
`if (a < 0xFF) c = (c * a) / 255;`. -/
def premul (c a : Nat) : Nat :=
  if a < 255 then c * a / 255 else c

/-- The four output bytes `pixbuf_to_hicon` writes for pixel `(x, y)`:
BGRA order, color channels premultiplied, alpha as read. -/
def hiconPixelBytes (pb : Pixbuf) (x y : Nat) : List Nat :=
  [premul (srcByte pb x y 2) (srcAlpha pb x y),
   premul (srcByte pb x y 1) (srcAlpha pb x y),
   premul (srcByte pb x y 0) (srcAlpha pb x y),
   srcAlpha pb x y]

/-- Unrolled, `bytesUpTo f n = f 0 ++ f 1 ++ ... ++ f (n-1)`: the byte stream a
C loop `for (i = 0; i < n; i++)` appends via an advancing pointer. -/
def bytesUpTo (f : Nat → List Nat) : Nat → List Nat
  | 0 => []
  | n + 1 => bytesUpTo f n ++ f n

/-- The bit buffer `pixbuf_to_hicon` fills: rows top-down, pixels
left-to-right, four bytes per pixel. -/
def hicon_bits (pb : Pixbuf) : List Nat :=
  bytesUpTo (fun y => bytesUpTo (fun x => hiconPixelBytes pb x y) pb.width) pb.height

/-- The color DIB the Windows converter builds (the 1-bit mask bitmap
carries no meaningful content and is omitted). -/
structure HIcon where
  width : Nat
  height : Nat
  bits : List Nat
deriving DecidableEq

/-- Embeds `pixbuf_to_hicon` (tray-windows.c), success path of the native
allocations: a top-down 32-bit BGRA bitmap of the source's dimensions. -/
def pixbuf_to_hicon (pb : Pixbuf) : HIcon :=
  { width := pb.width, height := pb.height, bits := hicon_bits pb }

/-! ## Shell-notification-icon backend (tray-windows.c) -/

/-- A `Shell_NotifyIconW` request, carrying the icon and tooltip fields
of the `NOTIFYICONDATAW` passed with it. -/
inductive ShellReq where
  | add (hIcon : Option HIcon) (tip : Option String)
  | modify (hIcon : Option HIcon) (tip : Option String)
  | delete
deriving DecidableEq

/-- Observable effects of the Windows backend operations. -/
inductive WEffect where
  | shell (r : ShellReq)
  | embeddedCb (cb ud : Nat)
  | destroyIcon
  | destroyWindow
deriving DecidableEq

/-- The shell requests among a list of effects. -/
def shellReqs (es : List WEffect) : List ShellReq :=
  es.filterMap fun e => match e with
    | WEffect.shell r => some r
    | _ => none

/-- The embedded-callback invocations among a list of effects. -/
def embCbCalls (es : List WEffect) : List (Nat × Nat) :=
  es.filterMap fun e => match e with
    | WEffect.embeddedCb cb ud => some (cb, ud)
    | _ => none

/-- Embeds `struct _TrayBackend` of tray-windows.c: the `NOTIFYICONDATAW`
icon/tooltip fields, the native icon handle, the cached source pixbuf,
the visibility flag and the three callback slots (function pointers
modelled as `Option Nat`, NULL = `none`). -/
structure WState where
  nid_hIcon : Option HIcon
  nid_tip : Option String
  hicon : Option HIcon
  current_icon : Option Pixbuf
  visible : Bool
  activate_cb : Option Nat
  activate_ud : Nat
  menu_cb : Option Nat
  menu_ud : Nat
  embedded_cb : Option Nat
  embedded_ud : Nat

/-- Embeds `tray_windows_new`. `hwndOk` is whether `CreateWindowExW` succeeds
(on failure the backend is freed and NULL returned); `nativeIconOk` is
whether the native bitmap/icon allocations inside `pixbuf_to_hicon`
succeed. -/
def tray_windows_new (hwndOk : Bool) (nativeIconOk : Bool)
    (icon : Option Pixbuf) (tooltip : Option String) : Option WState :=
  if !hwndOk then none else
  let base : WState :=
    { nid_hIcon := none, nid_tip := none, hicon := none, current_icon := none,
      visible := false, activate_cb := none, activate_ud := 0,
      menu_cb := none, menu_ud := 0, embedded_cb := none, embedded_ud := 0 }
  let withIcon : WState :=
    match icon with
    | some ic =>
      let h : Option HIcon := if nativeIconOk then some (pixbuf_to_hicon ic) else none
      { base with current_icon := some ic, hicon := h, nid_hIcon := h }
    | none => base
  some (match tooltip with
    | some t => { withIcon with nid_tip := some t }
    | none => withIcon)

/-- Embeds `tray_windows_set_icon`: null handle or null icon is a no-op;
otherwise the old native icon is destroyed, the new pixbuf is cached
and converted, and `NIM_MODIFY` is issued only when visible. -/
def tray_windows_set_icon (backend : Option WState) (icon : Option Pixbuf)
    (nativeIconOk : Bool) : Option WState × List WEffect :=
  match backend, icon with
  | some b, some ic =>
    let h : Option HIcon := if nativeIconOk then some (pixbuf_to_hicon ic) else none
    let b' := { b with current_icon := some ic, hicon := h, nid_hIcon := h }
    (some b',
      (if b.hicon.isSome then [WEffect.destroyIcon] else []) ++
        (if b.visible then [WEffect.shell (ShellReq.modify b'.nid_hIcon b'.nid_tip)] else []))
  | _, _ => (backend, [])

/-- Embeds `tray_windows_set_tooltip`: stages the tooltip into the
`NOTIFYICONDATAW`; `NIM_MODIFY` only when visible. -/
def tray_windows_set_tooltip (backend : Option WState) (tooltip : Option String) :
    Option WState × List WEffect :=
  match backend, tooltip with
  | some b, some t =>
    let b' := { b with nid_tip := some t }
    (some b',
      if b.visible then [WEffect.shell (ShellReq.modify b'.nid_hIcon b'.nid_tip)] else [])
  | _, _ => (backend, [])

/-- Embeds `tray_windows_set_visible`: `NIM_ADD` + embedded callback when
becoming visible, `NIM_DELETE` when becoming hidden, no-op otherwise. -/
def tray_windows_set_visible (backend : Option WState) (v : Bool) :
    Option WState × List WEffect :=
  match backend with
  | none => (none, [])
  | some b =>
    if v && !b.visible then
      (some { b with visible := true },
        WEffect.shell (ShellReq.add b.nid_hIcon b.nid_tip) ::
          (match b.embedded_cb with
           | some cb => [WEffect.embeddedCb cb b.embedded_ud]
           | none => []))
    else if !v && b.visible then
      (some { b with visible := false }, [WEffect.shell ShellReq.delete])
    else
      (some b, [])

/-- Embeds `tray_windows_is_embedded`: the stored visibility flag, FALSE for a
null handle. -/
def tray_windows_is_embedded : Option WState → Bool
  | none => false
  | some b => b.visible

/-- Embeds `tray_windows_set_activate_callback`. -/
def tray_windows_set_activate_callback (backend : Option WState)
    (cb : Option Nat) (ud : Nat) : Option WState :=
  match backend with
  | none => none
  | some b => some { b with activate_cb := cb, activate_ud := ud }

/-- Embeds `tray_windows_set_menu_callback`. -/
def tray_windows_set_menu_callback (backend : Option WState)
    (cb : Option Nat) (ud : Nat) : Option WState :=
  match backend with
  | none => none
  | some b => some { b with menu_cb := cb, menu_ud := ud }

/-- Embeds `tray_windows_set_embedded_callback`. -/
def tray_windows_set_embedded_callback (backend : Option WState)
    (cb : Option Nat) (ud : Nat) : Option WState :=
  match backend with
  | none => none
  | some b => some { b with embedded_cb := cb, embedded_ud := ud }

/-- Embeds `tray_windows_destroy`: `NIM_DELETE` if shown, destroy the native
icon and the hidden window, free the handle. -/
def tray_windows_destroy (backend : Option WState) : Option WState × List WEffect :=
  match backend with
  | none => (none, [])
  | some b =>
    (none,
      (if b.visible then [WEffect.shell ShellReq.delete] else []) ++
        (if b.hicon.isSome then [WEffect.destroyIcon] else []) ++
        [WEffect.destroyWindow])

/-! ## Desktop-indicator backend (tray-linux, src/unnamed/part_000) -/

/-- The AppIndicator native object: status (true = ACTIVE), the
registered icon-theme path / icon name / accessible description, the
title and whether a menu is attached. -/
structure AppIndicator where
  status_active : Bool
  icon_theme_path : Option String
  icon_name_reg : Option String
  icon_desc : Option String
  title : Option String
  menu_attached : Bool
deriving DecidableEq

/-- Observable effects of the Linux backend operations. `menuCbInvoked`
records one invocation of the host's menu-building delegate with the
arguments passed (`widgetIsMenuContainer` is whether the widget
argument is the persistent menu container rather than NULL). -/
inductive LEffect where
  | menuCbInvoked (widgetIsMenuContainer : Bool) (button : Nat) (time : Nat) (ud : Nat)
  | warning
  | unlink (path : String)
deriving DecidableEq

/-- Embeds `struct _TrayBackend` of tray-linux: the indicator, the persistent
menu container (its children as a list of item identifiers), the cached
source pixbuf, icon name, temp file path and callback slots. The
menu-building delegate is modelled as a function from its invocation
index to the items it appends, so distinct invocations may produce
distinct item sets; `menuCbCalls` counts past invocations. -/
structure LState where
  indicator : AppIndicator
  menu : Option (List Nat)
  menuCbCalls : Nat
  current_icon : Option Pixbuf
  icon_name : Option String
  temp_icon_path : Option String
  activate_cb : Option Nat
  activate_ud : Nat
  menu_cb : Option (Nat → List Nat)
  menu_ud : Nat
  embedded_cb : Option Nat
  embedded_ud : Nat

/-- Embeds `save_pixbuf_to_temp`: `/tmp/pchat-tray-<name>-<pid>.png`, or NULL
if `gdk_pixbuf_save` fails (`saveOk` = false). -/
def save_pixbuf_to_temp (saveOk : Bool) (name : String) (pid : Nat) : Option String :=
  if saveOk then some ("/tmp/pchat-tray-" ++ name ++ "-" ++ toString pid ++ ".png")
  else none

/-- Characters after the last `/`, on a reversed character list. -/
def revTakeUntilSlash : List Char → List Char
  | [] => []
  | c :: cs => if c = '/' then [] else c :: revTakeUntilSlash cs

/-- Characters before the last `/`, on a reversed character list. -/
def revDropThroughSlash : List Char → List Char
  | [] => []
  | c :: cs => if c = '/' then cs else revDropThroughSlash cs

/-- Embeds `g_path_get_dirname`. -/
def g_path_get_dirname (p : String) : String :=
  String.mk (revDropThroughSlash p.data.reverse).reverse

/-- Embeds `g_path_get_basename`. -/
def g_path_get_basename (p : String) : String :=
  String.mk (revTakeUntilSlash p.data.reverse).reverse

/-- Embeds `g_strndup(basename, strlen(basename) - 4)`: strip `.png`. -/
def stripPngExt (s : String) : String :=
  String.mk (s.data.take (s.data.length - 4))

/-- Register a saved icon file with the indicator:
`app_indicator_set_icon_theme_path` + `app_indicator_set_icon_full`. -/
def registerIconFile (ind : AppIndicator) (path : String) (desc : Option String) :
    AppIndicator :=
  { ind with
    icon_theme_path := some (g_path_get_dirname path),
    icon_name_reg := some (stripPngExt (g_path_get_basename path)),
    icon_desc := desc }

/-- Embeds `tray_linux_new`: allocate the indicator, convert/apply the initial
icon if any (registration skipped when the save fails), attach an empty
menu, set status ACTIVE. Always returns a non-null handle. -/
def tray_linux_new (icon : Option Pixbuf) (tooltip : Option String)
    (saveOk : Bool) (pid : Nat) : LState :=
  let ind0 : AppIndicator :=
    { status_active := false, icon_theme_path := none, icon_name_reg := none,
      icon_desc := none, title := none, menu_attached := false }
  let base : LState :=
    { indicator := ind0, menu := none, menuCbCalls := 0, current_icon := none,
      icon_name := none, temp_icon_path := none, activate_cb := none,
      activate_ud := 0, menu_cb := none, menu_ud := 0,
      embedded_cb := none, embedded_ud := 0 }
  let withIcon : LState :=
    match icon with
    | some ic =>
      let path := save_pixbuf_to_temp saveOk "pchat-normal" pid
      let b := { base with
                 current_icon := some ic,
                 icon_name := some "pchat-normal", temp_icon_path := path }
      match path with
      | some p => { b with indicator := registerIconFile b.indicator p tooltip }
      | none => b
    | none => base
  { withIcon with
    menu := some [],
    indicator := { withIcon.indicator with menu_attached := true, status_active := true } }

/-- Embeds `tray_linux_set_icon`: null handle or null icon is a no-op;
otherwise unlink the old temp file, cache the new pixbuf under a
time-derived name, save it, and re-register the icon only when the save
succeeded (on failure a warning is logged and registration is
skipped). -/
def tray_linux_set_icon (backend : Option LState) (icon : Option Pixbuf)
    (saveOk : Bool) (now : Nat) (pid : Nat) : Option LState × List LEffect :=
  match backend, icon with
  | some b, some ic =>
    let unlinkEffs : List LEffect :=
      match b.temp_icon_path with
      | some p => [LEffect.unlink p]
      | none => []
    let name := "pchat-" ++ toString now
    let path := save_pixbuf_to_temp saveOk name pid
    let b' := { b with
                current_icon := some ic, icon_name := some name,
                temp_icon_path := path }
    match path with
    | some p =>
      (some { b' with indicator := registerIconFile b'.indicator p (some "PChat") },
        unlinkEffs)
    | none => (some b', unlinkEffs ++ [LEffect.warning])
  | _, _ => (backend, [])

/-- Embeds `tray_linux_set_tooltip`: `app_indicator_set_title`. -/
def tray_linux_set_tooltip (backend : Option LState) (tooltip : Option String) :
    Option LState :=
  match backend, tooltip with
  | some b, some t => some { b with indicator := { b.indicator with title := some t } }
  | _, _ => backend

/-- Embeds `tray_linux_set_visible`: ACTIVE or PASSIVE status. -/
def tray_linux_set_visible (backend : Option LState) (v : Bool) : Option LState :=
  match backend with
  | none => none
  | some b => some { b with indicator := { b.indicator with status_active := v } }

/-- Embeds `tray_linux_is_embedded`: status == ACTIVE, FALSE for null. -/
def tray_linux_is_embedded : Option LState → Bool
  | none => false
  | some b => b.indicator.status_active

/-- Embeds `tray_linux_set_activate_callback`. -/
def tray_linux_set_activate_callback (backend : Option LState)
    (cb : Option Nat) (ud : Nat) : Option LState :=
  match backend with
  | none => none
  | some b => some { b with activate_cb := cb, activate_ud := ud }

/-- Embeds `tray_linux_set_menu_callback`: store the callback, then — when the
callback is non-null and the menu container exists — invoke it once,
synchronously, with `(GTK_WIDGET(backend->menu), 3, 0, userdata)`; the
items it produces are appended to the container. -/
def tray_linux_set_menu_callback (backend : Option LState)
    (cb : Option (Nat → List Nat)) (ud : Nat) : Option LState × List LEffect :=
  match backend with
  | none => (none, [])
  | some b =>
    let b' := { b with menu_cb := cb, menu_ud := ud }
    match cb, b.menu with
    | some f, some m =>
      (some { b' with
              menu := some (m ++ f b.menuCbCalls),
              menuCbCalls := b.menuCbCalls + 1 },
        [LEffect.menuCbInvoked true 3 0 ud])
    | _, _ => (some b', [])

/-- Embeds `tray_linux_set_embedded_callback`: stores only (never fired by the
backend). -/
def tray_linux_set_embedded_callback (backend : Option LState)
    (cb : Option Nat) (ud : Nat) : Option LState :=
  match backend with
  | none => none
  | some b => some { b with embedded_cb := cb, embedded_ud := ud }

/-- Embeds `tray_linux_rebuild_menu`: no-op when the handle, the menu or the
menu callback is null; otherwise destroy every child of the menu
container and re-invoke the delegate once with
`(GTK_WIDGET(backend->menu), 3, 0, menu_userdata)`. -/
def tray_linux_rebuild_menu (backend : Option LState) : Option LState × List LEffect :=
  match backend with
  | none => (none, [])
  | some b =>
    match b.menu, b.menu_cb with
    | some _, some f =>
      (some { b with
              menu := some (f b.menuCbCalls),
              menuCbCalls := b.menuCbCalls + 1 },
        [LEffect.menuCbInvoked true 3 0 b.menu_ud])
    | _, _ => (some b, [])

/-- Embeds `tray_linux_destroy`: unlink the temp file, release the pixbuf, the
menu and the indicator, free the handle. -/
def tray_linux_destroy (backend : Option LState) : Option LState × List LEffect :=
  match backend with
  | none => (none, [])
  | some b =>
    (none,
      match b.temp_icon_path with
      | some p => [LEffect.unlink p]
      | none => [])

/-! ## Status-bar-item backend (tray-macos.m) -/

/-- The RGBA bytes `pixbuf_to_nsimage` writes for pixel `(x, y)`: no
premultiplication, missing alpha treated as 0xFF. -/
def nsimagePixelBytes (pb : Pixbuf) (x y : Nat) : List Nat :=
  [srcByte pb x y 0, srcByte pb x y 1, srcByte pb x y 2, srcAlpha pb x y]

/-- An NSImage as built by `pixbuf_to_nsimage`: the RGBA bitmap rep,
the displayed size after `setSize:` and the template flag. -/
structure NSImage where
  rgbaBits : List Nat
  sizeW : Nat
  sizeH : Nat
  isTemplate : Bool

/-- Embeds `pixbuf_to_nsimage` (tray-macos.m), success path of the native
allocations: an RGBA bitmap at source resolution, resized to the 20x20
menu-bar glyph size (not yet marked template — callers do that). -/
def pixbuf_to_nsimage (pb : Pixbuf) : NSImage :=
  { rgbaBits :=
      bytesUpTo (fun y => bytesUpTo (fun x => nsimagePixelBytes pb x y) pb.width) pb.height,
    sizeW := 20, sizeH := 20, isTemplate := false }

/-- The native `NSStatusItem` with its button, as far as the backend
touches it. -/
structure StatusItem where
  autosave : Option String
  targetWired : Bool
  buttonTitle : String
  buttonImage : Option NSImage
  buttonTooltip : Option String
  itemVisible : Bool

/-- Observable effects of the macOS backend operations. The first five
constructors are messages actually delivered to a (non-nil) native
status item or its button; in Objective-C a message to nil is a no-op,
so they are only emitted when the status item exists. -/
inductive MEffect where
  | itemSetVisible (v : Bool)
  | itemRemoved
  | itemReleased
  | buttonSetImage
  | buttonSetTooltip
  | delegateReleased
  | imageReleased
  | embeddedCb (cb ud : Nat)
deriving DecidableEq

/-- Whether an effect touches the native status item (or its button). -/
def touchesStatusItem : MEffect → Bool
  | MEffect.itemSetVisible _ => true
  | MEffect.itemRemoved => true
  | MEffect.itemReleased => true
  | MEffect.buttonSetImage => true
  | MEffect.buttonSetTooltip => true
  | _ => false

/-- Embeds `struct _TrayBackend` of tray-macos.m. `statusItem = none` while
creation is still pending (or failed), mirroring the nil pointer. -/
structure MacState where
  statusItem : Option StatusItem
  currentImage : Option NSImage
  delegate : Bool
  currentIcon : Option Pixbuf
  tooltip : Option String
  visible : Bool
  activate_cb : Option Nat
  activate_ud : Nat
  menu_cb : Option Nat
  menu_ud : Nat
  embedded_cb : Option Nat
  embedded_ud : Nat

/-- Embeds `DeferredTrayData`: the creation request captured by
`tray_macos_new` for the deferred poll. -/
structure DeferredTrayData where
  icon : Option Pixbuf
  tooltip : Option String
  attempts : Nat

/-- The GSource return value of a `g_timeout` callback. -/
inductive GSourceResult where
  | cont
  | remove
deriving DecidableEq

/-- Embeds `create_status_item_deferred`, one poll invocation. `isRunning` is
`[NSApp isRunning]` at this invocation, `statusItemOk` whether
`statusItemWithLength:` returns a non-nil item, `convOk` whether the
bitmap rep inside `pixbuf_to_nsimage` allocates. If the app is not
running and fewer than 10 attempts have elapsed, it only bumps the
counter and reschedules; otherwise it performs the allocation: autosave
name, delegate, click target/action, fallback title "P", icon (template
image when conversion succeeds, title kept otherwise), tooltip, and
marks the item visible. -/
def create_status_item_deferred (st : MacState) (data : DeferredTrayData)
    (isRunning : Bool) (statusItemOk : Bool) (convOk : Bool) :
    MacState × DeferredTrayData × GSourceResult :=
  if !isRunning && data.attempts < 10 then
    (st, { data with attempts := data.attempts + 1 }, GSourceResult.cont)
  else if !statusItemOk then
    ({ st with statusItem := none }, data, GSourceResult.remove)
  else
    let st := { st with delegate := true }
    let si : StatusItem :=
      { autosave := some "org.pchat.statusitem", targetWired := true,
        buttonTitle := "P", buttonImage := none, buttonTooltip := none,
        itemVisible := false }
    let stsi : MacState × StatusItem :=
      match data.icon with
      | some ic =>
        let img : Option NSImage :=
          if convOk then some { pixbuf_to_nsimage ic with isTemplate := true } else none
        let st := { st with currentIcon := some ic, currentImage := img }
        match img with
        | some im => (st, { si with buttonImage := some im, buttonTitle := "" })
        | none => (st, si)
      | none => (st, si)
    let sttt : MacState × StatusItem :=
      match data.tooltip with
      | some t => ({ stsi.1 with tooltip := some t }, { stsi.2 with buttonTooltip := some t })
      | none => stsi
    ({ sttt.1 with statusItem := some { sttt.2 with itemVisible := true }, visible := true },
      data, GSourceResult.remove)

/-- The recurring `g_timeout_add(100, ...)` driver: re-invoke the poll
while it returns `G_SOURCE_CONTINUE`, up to `fuel` invocations.
`isRunning k` is `[NSApp isRunning]` at the k-th invocation. -/
def deferredLoop : Nat → MacState → DeferredTrayData → (Nat → Bool) → Bool → Bool →
    Nat → MacState
  | 0, st, _, _, _, _, _ => st
  | fuel + 1, st, data, isRunning, siOk, convOk, k =>
    match create_status_item_deferred st data (isRunning k) siOk convOk with
    | (st', _, GSourceResult.remove) => st'
    | (st', data', GSourceResult.cont) =>
      deferredLoop fuel st' data' isRunning siOk convOk (k + 1)

/-- Embeds `tray_macos_new`: returns immediately with a provisionally valid
handle (no native item, not visible) and schedules the deferred
creation with the captured icon/tooltip. -/
def tray_macos_new (icon : Option Pixbuf) (tooltip : Option String) :
    MacState × DeferredTrayData :=
  ({ statusItem := none, currentImage := none, delegate := false,
     currentIcon := none, tooltip := none, visible := false,
     activate_cb := none, activate_ud := 0, menu_cb := none, menu_ud := 0,
     embedded_cb := none, embedded_ud := 0 },
   { icon := icon, tooltip := tooltip, attempts := 0 })

/-- Embeds `tray_macos_set_icon`: null handle or null icon is a no-op;
otherwise release the old image, cache and convert the new one, and set
it on the status-item button only when both the conversion succeeded
and the button exists (`[nil button]` is nil). -/
def tray_macos_set_icon (backend : Option MacState) (icon : Option Pixbuf)
    (convOk : Bool) : Option MacState × List MEffect :=
  match backend, icon with
  | some b, some ic =>
    let releaseEffs : List MEffect :=
      if b.currentImage.isSome then [MEffect.imageReleased] else []
    let img : Option NSImage := if convOk then some (pixbuf_to_nsimage ic) else none
    let b := { b with currentIcon := some ic, currentImage := img }
    match img, b.statusItem with
    | some im, some si =>
      let im := { im with isTemplate := true }
      (some { b with
              currentImage := some im,
              statusItem := some { si with buttonImage := some im } },
        releaseEffs ++ [MEffect.buttonSetImage])
    | _, _ => (some b, releaseEffs)
  | _, _ => (backend, [])

/-- Embeds `tray_macos_set_tooltip`. -/
def tray_macos_set_tooltip (backend : Option MacState) (tooltip : Option String) :
    Option MacState × List MEffect :=
  match backend, tooltip with
  | some b, some t =>
    let b := { b with tooltip := some t }
    match b.statusItem with
    | some si =>
      (some { b with statusItem := some { si with buttonTooltip := some t } },
        [MEffect.buttonSetTooltip])
    | none => (some b, [])
  | _, _ => (backend, [])

/-- Embeds `tray_macos_set_visible`: sets the stored flag unconditionally and
forwards to the native item when it exists. -/
def tray_macos_set_visible (backend : Option MacState) (v : Bool) :
    Option MacState × List MEffect :=
  match backend with
  | none => (none, [])
  | some b =>
    match b.statusItem with
    | some si =>
      (some { b with visible := v, statusItem := some { si with itemVisible := v } },
        [MEffect.itemSetVisible v])
    | none => (some { b with visible := v }, [])

/-- Embeds `tray_macos_is_embedded`: the stored visibility flag, FALSE for a
null handle. -/
def tray_macos_is_embedded : Option MacState → Bool
  | none => false
  | some b => b.visible

/-- Embeds `tray_macos_set_activate_callback`. -/
def tray_macos_set_activate_callback (backend : Option MacState)
    (cb : Option Nat) (ud : Nat) : Option MacState :=
  match backend with
  | none => none
  | some b => some { b with activate_cb := cb, activate_ud := ud }

/-- Embeds `tray_macos_set_menu_callback`. -/
def tray_macos_set_menu_callback (backend : Option MacState)
    (cb : Option Nat) (ud : Nat) : Option MacState :=
  match backend with
  | none => none
  | some b => some { b with menu_cb := cb, menu_ud := ud }

/-- Embeds `tray_macos_set_embedded_callback`: stores the slot and fires the
callback immediately when non-null. -/
def tray_macos_set_embedded_callback (backend : Option MacState)
    (cb : Option Nat) (ud : Nat) : Option MacState × List MEffect :=
  match backend with
  | none => (none, [])
  | some b =>
    (some { b with embedded_cb := cb, embedded_ud := ud },
      match cb with
      | some c => [MEffect.embeddedCb c ud]
      | none => [])

/-- Embeds `tray_macos_destroy`: remove/release the status item, the delegate
and the image when they exist, free the handle. -/
def tray_macos_destroy (backend : Option MacState) : Option MacState × List MEffect :=
  match backend with
  | none => (none, [])
  | some b =>
    (none,
      (if b.statusItem.isSome then [MEffect.itemRemoved, MEffect.itemReleased] else []) ++
        (if b.delegate then [MEffect.delegateReleased] else []) ++
        (if b.currentImage.isSome then [MEffect.imageReleased] else []))

/-! ## Dispatcher (src/unnamed/part_003), Linux build configuration

On the `__linux__` branch the `backend_*` macros forward to the
`tray_linux_*` functions; each wrapper additionally guards against a
null handle (`if (backend)` / `return FALSE`). `tray_backend_rebuild_menu`
forwards without its own guard — the callee checks. -/

def tray_backend_new (icon : Option Pixbuf) (tooltip : Option String)
    (saveOk : Bool) (pid : Nat) : Option LState :=
  some (tray_linux_new icon tooltip saveOk pid)

def tray_backend_set_icon (backend : Option LState) (icon : Option Pixbuf)
    (saveOk : Bool) (now : Nat) (pid : Nat) : Option LState × List LEffect :=
  if backend.isSome then tray_linux_set_icon backend icon saveOk now pid
  else (backend, [])

def tray_backend_set_tooltip (backend : Option LState) (tooltip : Option String) :
    Option LState :=
  if backend.isSome then tray_linux_set_tooltip backend tooltip else backend

def tray_backend_set_visible (backend : Option LState) (v : Bool) : Option LState :=
  if backend.isSome then tray_linux_set_visible backend v else backend

def tray_backend_is_embedded (backend : Option LState) : Bool :=
  if backend.isSome then tray_linux_is_embedded backend else false

def tray_backend_set_activate_callback (backend : Option LState)
    (cb : Option Nat) (ud : Nat) : Option LState :=
  if backend.isSome then tray_linux_set_activate_callback backend cb ud else backend

def tray_backend_set_menu_callback (backend : Option LState)
    (cb : Option (Nat → List Nat)) (ud : Nat) : Option LState × List LEffect :=
  if backend.isSome then tray_linux_set_menu_callback backend cb ud else (backend, [])

def tray_backend_set_embedded_callback (backend : Option LState)
    (cb : Option Nat) (ud : Nat) : Option LState :=
  if backend.isSome then tray_linux_set_embedded_callback backend cb ud else backend

def tray_backend_destroy (backend : Option LState) : Option LState × List LEffect :=
  if backend.isSome then tray_linux_destroy backend else (backend, [])

def tray_backend_rebuild_menu (backend : Option LState) : Option LState × List LEffect :=
  tray_linux_rebuild_menu backend

def tray_backend_get_type : String := "AppIndicator"

/-! ## Concrete fixtures used by witnesses and counterexamples -/

/-- A 1x1 fully transparent 4-channel pixbuf. -/
def pbA : Pixbuf :=
  { width := 1, height := 1, rowstride := 4, nChannels := 4, pixels := fun _ => 0 }

/-- A 2x1 4-channel pixbuf distinguishable from `pbA` by its width. -/
def pbB : Pixbuf :=
  { width := 2, height := 1, rowstride := 8, nChannels := 4, pixels := fun _ => 0 }

/-- A 2x1 4-channel pixbuf with a translucent and an opaque pixel. -/
def pbAlpha : Pixbuf :=
  { width := 2, height := 1, rowstride := 8, nChannels := 4,
    pixels := fun i => [10, 20, 30, 128, 50, 60, 70, 255].getD i 0 }

/-- A 2x1 3-channel (no alpha) pixbuf. -/
def pbRgb : Pixbuf :=
  { width := 2, height := 1, rowstride := 6, nChannels := 3,
    pixels := fun i => [10, 20, 30, 40, 50, 60].getD i 0 }

/-- The Windows backend state `tray_windows_new(NULL, NULL)` produces. -/
def winEmpty : WState :=
  { nid_hIcon := none, nid_tip := none, hicon := none, current_icon := none,
    visible := false, activate_cb := none, activate_ud := 0,
    menu_cb := none, menu_ud := 0, embedded_cb := none, embedded_ud := 0 }

/-- A Linux backend state with a populated menu and a registered
menu-building delegate. -/
def lsFix : LState :=
  { tray_linux_new none none true 7 with
    menu := some [5, 6], menu_cb := some (fun k => [k, k + 10]),
    menu_ud := 42, menuCbCalls := 3 }

/-- A Linux backend state with no menu callback registered. -/
def lsNoCb : LState := tray_linux_new none none true 7

/-! ## Statement abbreviations for the longer claims -/

/-- What `pixbuf_to_hicon` guarantees for pixel `(x, y)`: dimensions
preserved, the output pixel at byte offset `4*(y*width+x)` in BGRA
order with premultiplied color whenever alpha < 255, color copied
exactly when fully opaque, the alpha byte carried unchanged, and a
3-channel source read as fully opaque. -/
def HiconPixelSpec (pb : Pixbuf) (x y : Nat) : Prop :=
  (pixbuf_to_hicon pb).width = pb.width ∧
  (pixbuf_to_hicon pb).height = pb.height ∧
  (pixbuf_to_hicon pb).bits.length = 4 * pb.width * pb.height ∧
  (pixbuf_to_hicon pb).bits[4 * (y * pb.width + x) + 3]? = some (srcAlpha pb x y) ∧
  (srcAlpha pb x y < 255 →
    (pixbuf_to_hicon pb).bits[4 * (y * pb.width + x)]? =
      some (srcByte pb x y 2 * srcAlpha pb x y / 255) ∧
    (pixbuf_to_hicon pb).bits[4 * (y * pb.width + x) + 1]? =
      some (srcByte pb x y 1 * srcAlpha pb x y / 255) ∧
    (pixbuf_to_hicon pb).bits[4 * (y * pb.width + x) + 2]? =
      some (srcByte pb x y 0 * srcAlpha pb x y / 255)) ∧
  (¬ srcAlpha pb x y < 255 →
    (pixbuf_to_hicon pb).bits[4 * (y * pb.width + x)]? = some (srcByte pb x y 2) ∧
    (pixbuf_to_hicon pb).bits[4 * (y * pb.width + x) + 1]? = some (srcByte pb x y 1) ∧
    (pixbuf_to_hicon pb).bits[4 * (y * pb.width + x) + 2]? = some (srcByte pb x y 0)) ∧
  (pb.nChannels ≠ 4 → srcAlpha pb x y = 255)

/-- What the Windows backend guarantees about `NIM_MODIFY` staging: a
modify request is issued by `set_icon`/`set_tooltip` exactly when the
icon is shown, and from a hidden state an icon + tooltip change
followed by `set_visible(true)` yields no shell request until the
single `NIM_ADD` carrying the staged icon and tooltip. -/
def ModifyIffShownSpec (b : WState) (ic : Pixbuf) (t : String) (nOk : Bool) : Prop :=
  (∀ w : WState, shellReqs (tray_windows_set_icon (some w) (some ic) nOk).2
      = (if w.visible then
          [ShellReq.modify (if nOk then some (pixbuf_to_hicon ic) else none) w.nid_tip]
         else [])) ∧
  (∀ w : WState, shellReqs (tray_windows_set_tooltip (some w) (some t)).2
      = (if w.visible then [ShellReq.modify w.nid_hIcon (some t)] else [])) ∧
  (let r1 := tray_windows_set_icon (some b) (some ic) nOk
   let r2 := tray_windows_set_tooltip r1.1 (some t)
   let r3 := tray_windows_set_visible r2.1 true
   shellReqs r1.2 = [] ∧ shellReqs r2.2 = [] ∧
   shellReqs r3.2 = [ShellReq.add (if nOk then some (pixbuf_to_hicon ic) else none) (some t)])

/-- What the Windows backend guarantees about `set_visible`
idempotence: a call requesting the current state is a no-op, and two
consecutive `set_visible(true)` calls from hidden submit one `NIM_ADD`,
fire the embedded callback once iff registered, and the second call
changes nothing. -/
def SetVisibleIdempotentSpec (b : WState) : Prop :=
  (∀ w : WState, tray_windows_set_visible (some w) w.visible = (some w, [])) ∧
  (let r1 := tray_windows_set_visible (some b) true
   let r2 := tray_windows_set_visible r1.1 true
   r2.1 = r1.1 ∧ r2.2 = [] ∧
   shellReqs (r1.2 ++ r2.2) = [ShellReq.add b.nid_hIcon b.nid_tip] ∧
   embCbCalls (r1.2 ++ r2.2)
     = (match b.embedded_cb with
        | some cb => [(cb, b.embedded_ud)]
        | none => []))

/-- What holds of macOS backend operations on a handle whose deferred
creation is still pending (`statusItem` nil): they complete, touch no
native status item, and leave none allocated. -/
def PendingSafeSpec (b : MacState) (ic : Option Pixbuf) (v : Bool) (convOk : Bool) : Prop :=
  (tray_macos_set_icon (some b) ic convOk).2.filter touchesStatusItem = [] ∧
  ((tray_macos_set_icon (some b) ic convOk).1.bind fun s => s.statusItem) = none ∧
  tray_macos_set_visible (some b) v = (some { b with visible := v }, []) ∧
  (tray_macos_destroy (some b)).2.filter touchesStatusItem = [] ∧
  tray_macos_is_embedded (some b) = b.visible

/-! ## Helper lemmas -/

theorem bytesUpTo_length (f : Nat → List Nat) (L : Nat)
    (hL : ∀ j, (f j).length = L) (n : Nat) :
    (bytesUpTo f n).length = L * n := by
  induction n with
  | zero => simp [bytesUpTo]
  | succ n ih => simp [bytesUpTo, ih, hL, Nat.mul_succ]

theorem bytesUpTo_getElem (f : Nat → List Nat) (L : Nat)
    (hL : ∀ j, (f j).length = L) (n i k : Nat) (hi : i < n) (hk : k < L) :
    (bytesUpTo f n)[L * i + k]? = (f i)[k]? := by
  induction n with
  | zero => omega
  | succ n ih =>
    rcases Nat.lt_succ_iff_lt_or_eq.mp hi with h | h
    · rw [bytesUpTo, List.getElem?_append_left]
      · exact ih h
      · rw [bytesUpTo_length f L hL]
        have h1 : i + 1 ≤ n := h
        calc L * i + k < L * i + L := by omega
          _ = L * (i + 1) := by ring
          _ ≤ L * n := Nat.mul_le_mul_left L h1
    · subst h
      rw [bytesUpTo, List.getElem?_append_right]
      · rw [bytesUpTo_length f L hL]
        congr 1
        omega
      · rw [bytesUpTo_length f L hL]
        omega

theorem hicon_bits_pixel (pb : Pixbuf) (x y k : Nat)
    (hx : x < pb.width) (hy : y < pb.height) (hk : k < 4) :
    (hicon_bits pb)[4 * (y * pb.width + x) + k]? = (hiconPixelBytes pb x y)[k]? := by
  have hinner : ∀ yy j, (hiconPixelBytes pb j yy).length = 4 := fun _ _ => rfl
  have hrow : ∀ j, (bytesUpTo (fun xx => hiconPixelBytes pb xx j) pb.width).length
      = 4 * pb.width := fun j => bytesUpTo_length _ 4 (hinner j) _
  have harith : 4 * (y * pb.width + x) + k = (4 * pb.width) * y + (4 * x + k) := by ring
  rw [hicon_bits, harith,
    bytesUpTo_getElem _ (4 * pb.width) hrow pb.height y (4 * x + k) hy (by omega),
    bytesUpTo_getElem _ 4 (hinner y) pb.width x k hx hk]

/-! ## Claim theorems -/

/-- C1: for every Source Image accepted by the in-memory bitmap
converter (`pixbuf_to_hicon`), each output pixel is written in BGRA
order with each color channel premultiplied as
`color' = color * alpha / 255` whenever `alpha < 255`, the alpha byte
carried unchanged, a pixel from a 3-channel image treated as fully
opaque (alpha = 255, color channels copied exactly), and the output
bitmap's width and height equal those of the Source Image. -/
theorem C1_pixbuf_to_hicon_pixels (pb : Pixbuf) (x y : Nat)
    (hx : x < pb.width) (hy : y < pb.height) : HiconPixelSpec pb x y := by
  have h0 := hicon_bits_pixel pb x y 0 hx hy (by omega)
  have h1 := hicon_bits_pixel pb x y 1 hx hy (by omega)
  have h2 := hicon_bits_pixel pb x y 2 hx hy (by omega)
  have h3 := hicon_bits_pixel pb x y 3 hx hy (by omega)
  simp only [Nat.add_zero] at h0
  have hlen : (hicon_bits pb).length = 4 * pb.width * pb.height := by
    have hinner : ∀ yy j, (hiconPixelBytes pb j yy).length = 4 := fun _ _ => rfl
    have hrow : ∀ j, (bytesUpTo (fun xx => hiconPixelBytes pb xx j) pb.width).length
        = 4 * pb.width := fun j => bytesUpTo_length _ 4 (hinner j) _
    rw [hicon_bits, bytesUpTo_length _ (4 * pb.width) hrow pb.height]
  refine ⟨rfl, rfl, hlen, ?_, ?_, ?_, ?_⟩
  · rw [pixbuf_to_hicon] at *
    simpa [hiconPixelBytes] using h3
  · intro ha
    rw [pixbuf_to_hicon] at *
    refine ⟨?_, ?_, ?_⟩ <;>
      simp_all [hiconPixelBytes, premul, if_pos ha]
  · intro ha
    rw [pixbuf_to_hicon] at *
    refine ⟨?_, ?_, ?_⟩ <;>
      simp_all [hiconPixelBytes, premul, if_neg ha]
  · intro hch
    simp [srcAlpha, hch]

/-- C1 witness: the spec evaluated at the translucent pixel (0,0) of a
concrete 2x1 RGBA image. -/
theorem C1_witness : 0 < pbAlpha.width ∧ 0 < pbAlpha.height ∧ HiconPixelSpec pbAlpha 0 0 :=
  ⟨by decide, by decide, C1_pixbuf_to_hicon_pixels pbAlpha 0 0 (by decide) (by decide)⟩

/-- C2 counterexample: with `[NSApp isRunning]` false at every poll
invocation, the claim says no native status item is ever allocated; in
fact `create_status_item_deferred` only reschedules while
`attempts < 10`, so its 11th invocation falls through the retry gate
and allocates the status item anyway. -/
theorem C2_counterexample :
    ((deferredLoop 11 (tray_macos_new none none).1 (tray_macos_new none none).2
        (fun _ => false) true true 0).statusItem).isSome = true := by
  rfl

/-- C2 amended: if the run-loop check never succeeds, the poll
reschedules itself only while fewer than 10 attempts have elapsed
(leaving the backend untouched, nothing allocated); once the retry
budget is exhausted it performs the native status-item allocation
anyway, run loop running or not. While creation is still pending
(`statusItem` nil), `set_icon`, `set_visible` and `destroy` on the
handle complete without error and without touching any native status
item, and `is_embedded` just reads the stored flag. -/
theorem C2_deferred_creation_bounded_retry (st : MacState) (data : DeferredTrayData)
    (siOk convOk : Bool) (b : MacState) (ic : Option Pixbuf) (v : Bool) (cOk : Bool)
    (hatt : data.attempts < 10) (hpend : b.statusItem = none) :
    create_status_item_deferred st data false siOk convOk
      = (st, { data with attempts := data.attempts + 1 }, GSourceResult.cont) ∧
    ((create_status_item_deferred st { data with attempts := 10 } false true convOk).1.statusItem).isSome
      = true ∧
    PendingSafeSpec b ic v cOk := by
  refine ⟨?_, ?_, ?_, ?_, ?_, ?_, ?_⟩
  · simp [create_status_item_deferred, hatt]
  · rfl
  · cases ic with
    | none => simp [tray_macos_set_icon]
    | some p =>
      cases cOk <;> simp [tray_macos_set_icon, hpend, touchesStatusItem]
  · cases ic with
    | none => simpa [tray_macos_set_icon] using hpend
    | some p => cases cOk <;> simp [tray_macos_set_icon, hpend]
  · simp [tray_macos_set_visible, hpend]
  · cases hd : b.delegate <;> cases hi : b.currentImage.isSome <;>
      simp [tray_macos_destroy, hpend, hd, hi, touchesStatusItem]
  · rfl

/-- C2 witness: the amended claim evaluated on the freshly created
(pending) backend with attempt counter 0. -/
theorem C2_witness :
    (tray_macos_new none none).2.attempts < 10 ∧
    ((tray_macos_new none none).1).statusItem = none ∧
    (create_status_item_deferred (tray_macos_new none none).1 (tray_macos_new none none).2
        false true true
      = ((tray_macos_new none none).1,
         { (tray_macos_new none none).2 with attempts := (tray_macos_new none none).2.attempts + 1 },
         GSourceResult.cont) ∧
     ((create_status_item_deferred (tray_macos_new none none).1
         { (tray_macos_new none none).2 with attempts := 10 } false true true).1.statusItem).isSome
       = true ∧
     PendingSafeSpec ((tray_macos_new none none).1) (some pbA) true true) :=
  ⟨by decide, rfl,
   C2_deferred_creation_bounded_retry (tray_macos_new none none).1 (tray_macos_new none none).2
     true true ((tray_macos_new none none).1) (some pbA) true true (by decide) rfl⟩

/-- C3 counterexample: create the Linux backend with `pbA` (save
succeeds, icon registered), then `set_icon` with `pbB` while the save
fails. The previously registered icon stays displayed and a warning is
logged, but the handle's cached current icon is now `pbB` — the newly
requested image — and no longer the last successfully applied one
(`pbA`), contradicting the claim. -/
theorem C3_counterexample :
    (let r := tray_linux_set_icon (some (tray_linux_new (some pbA) none true 7))
        (some pbB) false 99 7
     (r.1.bind fun s => s.temp_icon_path) = none ∧
     (r.1.map fun s => s.indicator.icon_name_reg)
       = some (some "pchat-tray-pchat-normal-7") ∧
     r.2 = [LEffect.unlink "/tmp/pchat-tray-pchat-normal-7.png", LEffect.warning] ∧
     ((r.1.bind fun s => s.current_icon).map fun p => p.width) = some 2 ∧
     pbA.width = 1 ∧
     ¬ ((r.1.bind fun s => s.current_icon).map fun p => p.width) = some pbA.width) := by
  refine ⟨rfl, rfl, rfl, rfl, rfl, ?_⟩
  intro h
  simp [tray_linux_set_icon, tray_linux_new, save_pixbuf_to_temp, pbA, pbB] at h

/-- C3 amended: a conversion failure is never propagated, and on the
desktop-indicator backend the previously registered (displayed) icon is
untouched; but the cached current icon is updated to the newly
requested image even when conversion fails, and on the
shell-notification-icon backend a failed native icon construction also
replaces the stored native icon handle with null, issuing a modify
request that carries the null icon when the icon is currently shown. -/
theorem C3_set_icon_conversion_failure (b : LState) (ic : Pixbuf) (now pid : Nat)
    (w : WState) (ic2 : Pixbuf) :
    (let r := tray_linux_set_icon (some b) (some ic) false now pid
     (r.1.map fun s => s.indicator) = some b.indicator ∧
     (r.1.bind fun s => s.current_icon) = some ic ∧
     (r.1.bind fun s => s.temp_icon_path) = none ∧
     r.2 = (match b.temp_icon_path with
            | some p => [LEffect.unlink p]
            | none => []) ++ [LEffect.warning]) ∧
    tray_windows_set_icon (some w) (some ic2) false
      = (some { w with current_icon := some ic2, hicon := none, nid_hIcon := none },
         (if w.hicon.isSome then [WEffect.destroyIcon] else []) ++
           (if w.visible then [WEffect.shell (ShellReq.modify none w.nid_tip)] else [])) := by
  refine ⟨⟨?_, ?_, ?_, ?_⟩, ?_⟩ <;>
    simp [tray_linux_set_icon, tray_windows_set_icon, save_pixbuf_to_temp]

/-- C4 counterexample: on the desktop-indicator backend,
`create(null, null)` yields a handle whose `is_embedded` is immediately
true — creation sets the indicator status to ACTIVE — contradicting the
claim that it is initially false on every backend. -/
theorem C4_counterexample :
    tray_linux_is_embedded (some (tray_linux_new none none true 7)) = true := by
  rfl

/-- C4 amended: `create(null, null)` succeeds on every backend (where
native preconditions allow) with no icon applied; on the
shell-notification-icon and status-bar-item backends the handle's
`is_embedded` is initially false, but on the desktop-indicator backend
creation sets the indicator ACTIVE, so `is_embedded` is initially
true. -/
theorem C4_create_null_null (sOk : Bool) (pid : Nat) (nOk : Bool) :
    (tray_linux_new none none sOk pid).current_icon = none ∧
    (tray_linux_new none none sOk pid).temp_icon_path = none ∧
    (tray_linux_new none none sOk pid).indicator.icon_name_reg = none ∧
    tray_linux_is_embedded (some (tray_linux_new none none sOk pid)) = true ∧
    tray_windows_new true nOk none none = some winEmpty ∧
    winEmpty.visible = false ∧ winEmpty.current_icon = none ∧ winEmpty.hicon = none ∧
    tray_windows_is_embedded (tray_windows_new true nOk none none) = false ∧
    ((tray_macos_new none none).1).visible = false ∧
    ((tray_macos_new none none).1).currentIcon = none ∧
    ((tray_macos_new none none).1).statusItem = none ∧
    tray_macos_is_embedded (some ((tray_macos_new none none).1)) = false :=
  ⟨rfl, rfl, rfl, rfl, rfl, rfl, rfl, rfl, rfl, rfl, rfl, rfl, rfl⟩

/-- C5: on the shell-notification-icon backend, `set_icon` and
`set_tooltip` issue a native modify request if and only if the icon is
currently shown; while hidden the change is only staged in the icon
descriptor, and the next `set_visible(true)` issues exactly one add
request carrying the staged icon/tooltip and zero modify requests. -/
theorem C5_modify_iff_shown (b : WState) (ic : Pixbuf) (t : String) (nOk : Bool)
    (hv : b.visible = false) : ModifyIffShownSpec b ic t nOk := by
  refine ⟨?_, ?_, ?_⟩
  · intro w
    cases hw : w.visible <;> cases hh : w.hicon.isSome <;>
      simp [tray_windows_set_icon, shellReqs, hw, hh]
  · intro w
    cases hw : w.visible <;> simp [tray_windows_set_tooltip, shellReqs, hw]
  · cases hh : b.hicon.isSome <;>
      simp [tray_windows_set_icon, tray_windows_set_tooltip, tray_windows_set_visible,
        shellReqs, hv, hh] <;>
      cases hcb : b.embedded_cb <;> simp [shellReqs, hcb]

/-- C5 witness: the spec evaluated on the hidden freshly created
backend with a concrete icon and tooltip. -/
theorem C5_witness : winEmpty.visible = false ∧ ModifyIffShownSpec winEmpty pbAlpha "Idle" true :=
  ⟨rfl, C5_modify_iff_shown winEmpty pbAlpha "Idle" true rfl⟩

/-- C6: on the shell-notification-icon backend, `set_visible` with the
state the icon is already in is a no-op; two consecutive
`set_visible(true)` calls from hidden submit exactly one native add
request, fire the embedded-state-changed callback exactly once (when
registered), and the second call leaves all handle state unchanged. -/
theorem C6_set_visible_idempotent (b : WState) (hv : b.visible = false) :
    SetVisibleIdempotentSpec b := by
  refine ⟨?_, ?_⟩
  · intro w
    cases hw : w.visible <;> simp [tray_windows_set_visible, hw]
  · cases hcb : b.embedded_cb <;>
      simp [tray_windows_set_visible, hv, hcb, shellReqs, embCbCalls]

/-- C6 witness: the spec evaluated on a hidden backend with a
registered embedded callback. -/
theorem C6_witness :
    ({ winEmpty with embedded_cb := some 9, embedded_ud := 11 } : WState).visible = false ∧
    SetVisibleIdempotentSpec { winEmpty with embedded_cb := some 9, embedded_ud := 11 } :=
  ⟨rfl, C6_set_visible_idempotent { winEmpty with embedded_cb := some 9, embedded_ud := 11 } rfl⟩

/-- C7: every operation of the uniform operation set, on every backend
and in the dispatcher, treats a null handle as a no-op — no state
change, no effect — and `is_embedded` returns false on null. -/
theorem C7_null_handle_noop (ic : Option Pixbuf) (t : Option String) (v : Bool)
    (cb : Option Nat) (mcb : Option (Nat → List Nat)) (ud : Nat)
    (sOk nOk cOk : Bool) (now pid : Nat) :
    tray_linux_set_icon none ic sOk now pid = (none, []) ∧
    tray_linux_set_tooltip none t = none ∧
    tray_linux_set_visible none v = none ∧
    tray_linux_is_embedded none = false ∧
    tray_linux_set_activate_callback none cb ud = none ∧
    tray_linux_set_menu_callback none mcb ud = (none, []) ∧
    tray_linux_set_embedded_callback none cb ud = none ∧
    tray_linux_rebuild_menu none = (none, []) ∧
    tray_linux_destroy none = (none, []) ∧
    tray_windows_set_icon none ic nOk = (none, []) ∧
    tray_windows_set_tooltip none t = (none, []) ∧
    tray_windows_set_visible none v = (none, []) ∧
    tray_windows_is_embedded none = false ∧
    tray_windows_set_activate_callback none cb ud = none ∧
    tray_windows_set_menu_callback none cb ud = none ∧
    tray_windows_set_embedded_callback none cb ud = none ∧
    tray_windows_destroy none = (none, []) ∧
    tray_macos_set_icon none ic cOk = (none, []) ∧
    tray_macos_set_tooltip none t = (none, []) ∧
    tray_macos_set_visible none v = (none, []) ∧
    tray_macos_is_embedded none = false ∧
    tray_macos_set_activate_callback none cb ud = none ∧
    tray_macos_set_menu_callback none cb ud = none ∧
    tray_macos_set_embedded_callback none cb ud = (none, []) ∧
    tray_macos_destroy none = (none, []) ∧
    tray_backend_set_icon none ic sOk now pid = (none, []) ∧
    tray_backend_set_tooltip none t = none ∧
    tray_backend_set_visible none v = none ∧
    tray_backend_is_embedded none = false ∧
    tray_backend_set_activate_callback none cb ud = none ∧
    tray_backend_set_menu_callback none mcb ud = (none, []) ∧
    tray_backend_set_embedded_callback none cb ud = none ∧
    tray_backend_rebuild_menu none = (none, []) ∧
    tray_backend_destroy none = (none, []) := by
  refine ⟨?_, ?_, ?_, rfl, rfl, rfl, rfl, rfl, rfl, ?_, ?_, rfl, rfl, rfl, rfl, rfl, rfl,
    ?_, ?_, rfl, rfl, rfl, rfl, rfl, rfl, ?_, ?_, rfl, rfl, rfl, rfl, rfl, rfl, rfl⟩ <;>
    cases ic <;> cases t <;> rfl

/-- C8: on the desktop-indicator backend, `rebuild_menu` destroys every
existing child of the persistent menu container and invokes the
registered menu-building delegate exactly once, leaving the menu with
exactly the items produced by that most recent invocation; with no menu
callback registered it does nothing. -/
theorem C8_rebuild_menu (b b2 : LState) (m : List Nat) (f : Nat → List Nat)
    (hm : b.menu = some m) (hf : b.menu_cb = some f) (hnone : b2.menu_cb = none) :
    tray_linux_rebuild_menu (some b)
      = (some { b with
                menu := some (f b.menuCbCalls), menuCbCalls := b.menuCbCalls + 1 },
         [LEffect.menuCbInvoked true 3 0 b.menu_ud]) ∧
    tray_linux_rebuild_menu (some b2) = (some b2, []) := by
  constructor
  · simp [tray_linux_rebuild_menu, hm, hf]
  · cases h2 : b2.menu <;> simp [tray_linux_rebuild_menu, h2, hnone]

/-- C8 witness: rebuilding a menu holding stale items `[5, 6]` with a
delegate on its fourth invocation, and a backend without a callback. -/
theorem C8_witness :
    tray_linux_rebuild_menu (some lsFix)
      = (some { lsFix with menu := some [3, 13], menuCbCalls := 4 },
         [LEffect.menuCbInvoked true 3 0 42]) ∧
    tray_linux_rebuild_menu (some lsNoCb) = (some lsNoCb, []) :=
  C8_rebuild_menu lsFix lsNoCb [5, 6] (fun k => [k, k + 10]) rfl rfl rfl

/-- C9: on the desktop-indicator backend, registering a non-null menu
callback immediately invokes it exactly once, synchronously, with the
persistent menu container as the widget argument, button code 3 and
timestamp 0, appending the produced items to the container. -/
theorem C9_set_menu_callback_initial_build (b : LState) (m : List Nat)
    (f : Nat → List Nat) (ud : Nat) (hm : b.menu = some m) :
    tray_linux_set_menu_callback (some b) (some f) ud
      = (some { b with
                menu_cb := some f, menu_ud := ud,
                menu := some (m ++ f b.menuCbCalls), menuCbCalls := b.menuCbCalls + 1 },
         [LEffect.menuCbInvoked true 3 0 ud]) := by
  simp [tray_linux_set_menu_callback, hm]

/-- C9 witness: registering a delegate on a freshly created backend
populates the (empty) menu with the delegate's items at once. -/
theorem C9_witness :
    tray_linux_set_menu_callback (some lsNoCb) (some fun k => [k + 100]) 5
      = (some { lsNoCb with
                menu_cb := some fun k => [k + 100], menu_ud := 5,
                menu := some [100], menuCbCalls := 1 },
         [LEffect.menuCbInvoked true 3 0 5]) :=
  C9_set_menu_callback_initial_build lsNoCb [] (fun k => [k + 100]) 5 rfl

/-- C10: on the status-bar-item backend, `is_embedded` returns exactly
the stored visibility flag, which `create` initializes to false and
`set_visible` sets unconditionally — independently of native
realization; in particular `set_visible(true)` while creation is still
pending makes `is_embedded` true with no native status item in
existence. -/
theorem C10_is_embedded_is_stored_flag (icon : Option Pixbuf) (tooltip : Option String)
    (b : MacState) (v : Bool) :
    tray_macos_is_embedded (some b) = b.visible ∧
    ((tray_macos_new icon tooltip).1).visible = false ∧
    ((tray_macos_new icon tooltip).1).statusItem = none ∧
    ((tray_macos_set_visible (some b) v).1.map fun s => s.visible) = some v ∧
    (let r := tray_macos_set_visible (some ((tray_macos_new none none).1)) true
     tray_macos_is_embedded r.1 = true ∧ (r.1.bind fun s => s.statusItem) = none) := by
  refine ⟨rfl, rfl, rfl, ?_, rfl, rfl⟩
  cases h : b.statusItem <;> simp [tray_macos_set_visible, h]

end PChat
